import Mathlib

/-!
Verification of the Wi-Fi QR-code payload builder.

Strings of the implementation are modelled as `List Char`; `str::replace`
with a one-character pattern becomes `replaceChar`; the builder record,
its field assembly and its serialization are translated function by
function from `src/lib.rs`.  The QR/image/file-system side effects of
`generate_image_file` are kept abstract as parameters of `QrEnv`; only the
control flow of the function itself is translated.
-/

namespace WifiQr

/-- Rust `str::replace(pat, rep)` for a single-character pattern `pat`:
every occurrence of the character is replaced by the list `rep`. -/
def replaceChar (pat : Char) (rep : List Char) : List Char → List Char
  | [] => []
  | x :: xs => if x = pat then rep ++ replaceChar pat rep xs else x :: replaceChar pat rep xs

/-- The sixteen characters of the string literal `"0123456789abcdef"` in
`could_be_ascii_hex` (src/lib.rs). -/
def hexDigits : List Char := "0123456789abcdef".toList

/-- `Field::could_be_ascii_hex` (src/lib.rs): the loop returns `false` at the
first character not contained in `"0123456789abcdef"`, else `true`. -/
def could_be_ascii_hex : List Char → Bool
  | [] => true
  | c :: rest => if hexDigits.contains c then could_be_ascii_hex rest else false

/-- The five sequential whole-string substitutions of
`Field::escape_field_value` (src/lib.rs): backslash first, then `;`, `,`,
`"`, `:`, each prefixed with a backslash. -/
def escape_subst (s : List Char) : List Char :=
  replaceChar ':' ['\\', ':']
    (replaceChar '"' ['\\', '"']
      (replaceChar ',' ['\\', ',']
        (replaceChar ';' ['\\', ';']
          (replaceChar '\\' ['\\', '\\'] s))))

/-- `Field::escape_field_value` (src/lib.rs): the five substitutions, then
the value is wrapped in double quotes when `could_be_ascii_hex` holds of
the substituted string. -/
def escape_field_value (s : List Char) : List Char :=
  let value := escape_subst s
  if could_be_ascii_hex value then '"' :: (value ++ ['"']) else value

/-- A payload field: a name paired with an already-encoded value
(`struct Field` of src/lib.rs). -/
structure Field where
  name : List Char
  value : List Char
deriving DecidableEq, Repr

/-- `Field::new_string` (src/lib.rs): the value is escaped (and possibly
quoted); the name is taken as given. -/
def Field.new_string (n : List Char) (v : List Char) : Field :=
  ⟨n, escape_field_value v⟩

/-- Lowercase hexadecimal digit for `n < 16`. -/
def hexNibble (n : Nat) : Char := hexDigits.getD n ' '

/-- Rust `format!("{b:x}")` for a byte `b`: lowercase hex without leading
zero padding (one digit below 16, two digits otherwise). -/
def hexByte (b : Nat) : List Char :=
  if b < 16 then [hexNibble b] else [hexNibble (b / 16), hexNibble (b % 16)]

/-- `Field::new_hex` (src/lib.rs): each byte formatted with `{b:x}` and the
pieces concatenated; no escaping, no quoting. -/
def Field.new_hex (n : List Char) (v : List Nat) : Field :=
  ⟨n, (v.map hexByte).flatten⟩

/-- The 64 characters of the standard base64 alphabet. -/
def base64Alphabet : List Char :=
  "ABCDEFGHIJKLMNOPQRSTUVWXYZabcdefghijklmnopqrstuvwxyz0123456789+/".toList

/-- Character of the standard base64 alphabet at index `n < 64`. -/
def b64Char (n : Nat) : Char := base64Alphabet.getD n '?'

/-- Standard base64 with `=` padding
(`base64::engine::general_purpose::STANDARD.encode`), on bytes as `Nat`. -/
def base64Encode : List Nat → List Char
  | [] => []
  | [b1] => [b64Char (b1 / 4), b64Char (b1 % 4 * 16), '=', '=']
  | [b1, b2] => [b64Char (b1 / 4), b64Char (b1 % 4 * 16 + b2 / 16), b64Char (b2 % 16 * 4), '=']
  | b1 :: b2 :: b3 :: rest =>
    b64Char (b1 / 4) :: b64Char (b1 % 4 * 16 + b2 / 16) ::
      b64Char (b2 % 16 * 4 + b3 / 64) :: b64Char (b3 % 64) :: base64Encode rest

/-- `Field::new_base64` (src/lib.rs): the value is base64-encoded; no
escaping, no quoting. -/
def Field.new_base64 (n : List Char) (v : List Nat) : Field :=
  ⟨n, base64Encode v⟩

/-- `<Field as Display>::fmt` (src/lib.rs): a field renders as
`NAME:VALUE;`. -/
def Field.render (f : Field) : List Char :=
  f.name ++ ':' :: (f.value ++ [';'])

/-- `enum WifiMethod` (src/lib.rs). -/
inductive WifiMethod where
  | NoPass
  | Wep
  | Wpa
  | Wpa2Enterprise
  | Wpa3
deriving DecidableEq, Repr

/-- The `match` at the head of `WifiMethod::add_fields` (src/lib.rs):
the wire string for the `T` field. -/
def WifiMethod.kindStr : WifiMethod → List Char
  | .NoPass => "nopass".toList
  | .Wep => "WEP".toList
  | .Wpa => "WPA".toList
  | .Wpa3 => "WPA".toList
  | .Wpa2Enterprise => "WPA2-EAP".toList

/-- `WifiMethod::add_fields` (src/lib.rs), as the list of fields it pushes:
the `T` field always, then for `Wpa3` alone the extra hex field
`R` with the single byte `01`. -/
def WifiMethod.add_fields (m : WifiMethod) : List Field :=
  [Field.new_string ['T'] m.kindStr] ++
    (match m with
      | .Wpa3 => [Field.new_hex ['R'] [1]]
      | _ => [])

/-- `enum EapMethod` (src/lib.rs). -/
inductive EapMethod where
  | Peap
  | Tls
  | Ttls
  | Pwd
  | Sim
  | Aka
  | AkaPrime
deriving DecidableEq, Repr

/-- The `match` inside `EapMethod::add_fields` (src/lib.rs). -/
def EapMethod.eapName : EapMethod → List Char
  | .Peap => "PEAP".toList
  | .Tls => "TLS".toList
  | .Ttls => "TTLS".toList
  | .Pwd => "PWD".toList
  | .Sim => "SIM".toList
  | .Aka => "AKA".toList
  | .AkaPrime => "AKA_PRIME".toList

/-- `EapMethod::add_fields` (src/lib.rs), as the list of fields it pushes. -/
def EapMethod.add_fields (e : EapMethod) : List Field :=
  [Field.new_string ['E'] e.eapName]

/-- `enum Phase2` (src/lib.rs). -/
inductive Phase2 where
  | MsChap
  | MsChapV2
  | Pap
  | Gtc
  | Sim
  | Aka
  | AkaPrime
deriving DecidableEq, Repr

/-- The `match` inside `Phase2::add_fields` (src/lib.rs). -/
def Phase2.ph2Name : Phase2 → List Char
  | .MsChap => "MSCHAP".toList
  | .MsChapV2 => "MSCHAPV2".toList
  | .Gtc => "GTC".toList
  | .Sim => "SIM".toList
  | .Aka => "AKA".toList
  | .AkaPrime => "AKA_PRIME".toList
  | .Pap => "PAP".toList

/-- `Phase2::add_fields` (src/lib.rs), as the list of fields it pushes. -/
def Phase2.add_fields (p : Phase2) : List Field :=
  [Field.new_string ['P', 'H', '2'] p.ph2Name]

/-- `struct Wifi` (src/lib.rs): the credential record. -/
structure Wifi where
  ssid : List Char
  kind : Option WifiMethod
  hidden : Bool
  eap_method : Option EapMethod
  phase2 : Option Phase2
  anonymous_identity : Option (List Char)
  identity : Option (List Char)
  password : Option (List Char)
  public_key : Option (List Nat)
deriving DecidableEq, Repr

/-- `Wifi::new` (src/lib.rs): only the ssid is set; every optional
attribute is absent and `hidden` is false. -/
def Wifi.new (ssid : List Char) : Wifi :=
  ⟨ssid, none, false, none, none, none, none, none, none⟩

/-- `Wifi::with_method` (src/lib.rs). -/
def Wifi.with_method (w : Wifi) (wifi_method : Option WifiMethod) : Wifi :=
  { w with kind := wifi_method }

/-- `Wifi::with_hidden` (src/lib.rs). -/
def Wifi.with_hidden (w : Wifi) (hidden : Bool) : Wifi :=
  { w with hidden := hidden }

/-- `Wifi::with_eap_method` (src/lib.rs). -/
def Wifi.with_eap_method (w : Wifi) (eap : Option EapMethod) : Wifi :=
  { w with eap_method := eap }

/-- `Wifi::with_phase2` (src/lib.rs). -/
def Wifi.with_phase2 (w : Wifi) (ph2 : Option Phase2) : Wifi :=
  { w with phase2 := ph2 }

/-- `Wifi::with_anonymous_identity` (src/lib.rs). -/
def Wifi.with_anonymous_identity (w : Wifi) (anon : Option (List Char)) : Wifi :=
  { w with anonymous_identity := anon }

/-- `Wifi::with_identity` (src/lib.rs). -/
def Wifi.with_identity (w : Wifi) (id : Option (List Char)) : Wifi :=
  { w with identity := id }

/-- `Wifi::with_password` (src/lib.rs). -/
def Wifi.with_password (w : Wifi) (pw : Option (List Char)) : Wifi :=
  { w with password := pw }

/-- `Wifi::with_public_key` (src/lib.rs). -/
def Wifi.with_public_key (w : Wifi) (pk : Option (List Nat)) : Wifi :=
  { w with public_key := pk }

/-- `Wifi::expected_field_count` (src/lib.rs): 2 for a `Wpa3` kind, 1 for
any other present kind, 1 for the ssid, and 1 for each further present
attribute. -/
def Wifi.expected_field_count (w : Wifi) : Nat :=
  (match w.kind with
    | none => 0
    | some m => match m with | .Wpa3 => 2 | _ => 1)
  + 1
  + w.hidden.toNat
  + w.eap_method.isSome.toNat
  + w.phase2.isSome.toNat
  + w.anonymous_identity.isSome.toNat
  + w.identity.isSome.toNat
  + w.password.isSome.toNat
  + w.public_key.isSome.toNat

/-- One `if let Some(x) = ...` step of `Wifi::fields` (src/lib.rs): the
fields contributed by an optional attribute, empty when it is absent. -/
def optFields {A : Type} (f : A → List Field) : Option A → List Field
  | none => []
  | some x => f x

/-- `Wifi::fields` (src/lib.rs), with each `push`/`add_fields` call turned
into an appended segment, in the order of the source. -/
def Wifi.fields (w : Wifi) : List Field :=
  optFields WifiMethod.add_fields w.kind
  ++ [Field.new_string ['S'] w.ssid]
  ++ (if w.hidden then [Field.new_string ['H'] ("true".toList)] else [])
  ++ optFields EapMethod.add_fields w.eap_method
  ++ optFields Phase2.add_fields w.phase2
  ++ optFields (fun anon => [Field.new_string ['A'] anon]) w.anonymous_identity
  ++ optFields (fun ident => [Field.new_string ['I'] ident]) w.identity
  ++ optFields (fun password => [Field.new_string ['P'] password]) w.password
  ++ optFields (fun pk => [Field.new_base64 ['K'] pk]) w.public_key

/-- `<Wifi as ToString>::to_string` (src/lib.rs): the rendered fields are
concatenated and wrapped as `WIFI:{content};`. -/
def Wifi.to_string (w : Wifi) : List Char :=
  "WIFI:".toList ++ (w.fields.map Field.render).flatten ++ [';']

/-- The escaping rule exactly as the spec words it, character by character:
each of the five special characters is replaced by a backslash followed by
the character itself; every other character stays.  This definition is the
comparison point for the sequential-substitution implementation. -/
def spec_escape_char (c : Char) : List Char :=
  if c = '\\' ∨ c = ';' ∨ c = ',' ∨ c = '"' ∨ c = ':' then ['\\', c] else [c]

/-- The spec's escaping function on whole strings: `spec_escape_char`
applied to every character, concatenated. -/
def spec_escape (s : List Char) : List Char :=
  s.flatMap spec_escape_char

/-- Modelled from the spec: the reverse substitution (unescaping), which the
repository itself does not implement.  A backslash consumes the following
character verbatim; every other character stays. -/
def unescape : List Char → List Char
  | [] => []
  | [c] => [c]
  | c1 :: c2 :: rest =>
    if c1 = '\\' then c2 :: unescape rest else c1 :: unescape (c2 :: rest)

/-- The quoting condition as the spec words it: every character of the
string is one of the sixteen lowercase hex digits. -/
def allHexLower (l : List Char) : Prop :=
  ∀ c ∈ l, c ∈ hexDigits

instance (l : List Char) : Decidable (allHexLower l) :=
  List.decidableBAll _ l

/-- `enum GenerationError` (src/lib.rs): the three error kinds, with each
external library's error payload kept abstract as a type parameter. -/
inductive GenerationError (QErr IErr OErr : Type) where
  | QrError : QErr → GenerationError QErr IErr OErr
  | ImageError : IErr → GenerationError QErr IErr OErr
  | Io : OErr → GenerationError QErr IErr OErr

/-- The external collaborators of `Wifi::generate_image_file`
(src/lib.rs), kept abstract: `qrNew` is `QrCode::new`, `render` is
`code.render::<Px>().build()`, `save` and `save_guess_format` are the two
image-saving entry points, each threading the file-system state `FS` and
possibly reporting an error. -/
structure QrEnv (Code Img Fmt FS QErr IErr OErr : Type) where
  qrNew : List Char → Except QErr Code
  render : Code → Img
  save : Img → Fmt → FS → Option (GenerationError QErr IErr OErr) × FS
  save_guess_format : Img → FS → Option (GenerationError QErr IErr OErr) × FS

variable {Code Img Fmt FS QErr IErr OErr : Type}

/-- `Wifi::generate_image_file` (src/lib.rs), control flow only: the `?` on
`QrCode::new` converts the QR error via `From` and returns before any
rendering or saving, so the file-system state comes back unchanged; on
success the explicit format (when given) selects `save`, otherwise
`save_guess_format` runs. -/
def generate_image_file (env : QrEnv Code Img Fmt FS QErr IErr OErr)
    (w : Wifi) (format : Option Fmt) (fs : FS) :
    Option (GenerationError QErr IErr OErr) × FS :=
  match env.qrNew w.to_string with
  | .error e => (some (.QrError e), fs)
  | .ok code =>
    let image := env.render code
    match format with
    | some f => env.save image f fs
    | none => env.save_guess_format image fs

/-- A concrete environment whose QR step always fails, for exercising the
error path of `generate_image_file` at a concrete input. -/
def qrEnvFailing : QrEnv Unit Unit Unit Nat Nat Unit Unit :=
  ⟨fun _ => .error 0, fun _ => (), fun _ _ fs => (none, fs), fun _ fs => (none, fs)⟩

theorem replaceChar_append (pat : Char) (rep : List Char) (xs ys : List Char) :
    replaceChar pat rep (xs ++ ys) = replaceChar pat rep xs ++ replaceChar pat rep ys := by
  induction xs with
  | nil => rfl
  | cons x xs ih =>
    by_cases h : x = pat <;> simp [replaceChar, h, ih]

theorem escape_subst_append (xs ys : List Char) :
    escape_subst (xs ++ ys) = escape_subst xs ++ escape_subst ys := by
  simp [escape_subst, replaceChar_append]

theorem escape_subst_single (x : Char) : escape_subst [x] = spec_escape_char x := by
  by_cases h1 : x = '\\'
  · subst h1; decide
  · by_cases h2 : x = ';'
    · subst h2; decide
    · by_cases h3 : x = ','
      · subst h3; decide
      · by_cases h4 : x = '"'
        · subst h4; decide
        · by_cases h5 : x = ':'
          · subst h5; decide
          · simp [escape_subst, replaceChar, spec_escape_char, h1, h2, h3, h4, h5]

theorem escape_subst_cons (x : Char) (xs : List Char) :
    escape_subst (x :: xs) = spec_escape_char x ++ escape_subst xs := by
  have h : x :: xs = [x] ++ xs := rfl
  rw [h, escape_subst_append, escape_subst_single]

theorem could_be_ascii_hex_iff (l : List Char) :
    could_be_ascii_hex l = true ↔ allHexLower l := by
  induction l with
  | nil => simp [could_be_ascii_hex, allHexLower]
  | cons c rest ih =>
    by_cases h : c ∈ hexDigits
    · have hc : hexDigits.contains c = true := by
        simp [List.contains, List.elem_iff, h]
      simp only [could_be_ascii_hex, hc, if_true, ih, allHexLower, List.forall_mem_cons]
      simp [h]
    · have hc : hexDigits.contains c = false := by
        simp [List.contains, List.elem_iff, h]
      simp [could_be_ascii_hex, hc, allHexLower, h]

theorem unescape_cons_of_ne (x : Char) (l : List Char) (h : x ≠ '\\') :
    unescape (x :: l) = x :: unescape l := by
  cases l with
  | nil => rfl
  | cons y ys => simp [unescape, h]

/-- C1: after the five escape substitutions, the value is wrapped in double
quotes exactly when every character of the escaped string is one of the
sixteen lowercase hex digits; in particular the empty string escapes to a
quoted empty value `""`, and a string with an uppercase or other non-hex
character stays unquoted. -/
theorem escape_quotes_iff_all_hex (s : List Char) :
    (escape_field_value s =
      if allHexLower (escape_subst s) then '"' :: (escape_subst s ++ ['"'])
      else escape_subst s)
    ∧ escape_field_value [] = ['"', '"']
    ∧ escape_field_value ['A', 'b'] = ['A', 'b'] := by
  refine ⟨?_, by decide, by decide⟩
  by_cases h : allHexLower (escape_subst s)
  · rw [if_pos h]
    have hc := (could_be_ascii_hex_iff (escape_subst s)).mpr h
    simp [escape_field_value, hc]
  · rw [if_neg h]
    have hc : could_be_ascii_hex (escape_subst s) = false := by
      rcases Bool.eq_false_or_eq_true (could_be_ascii_hex (escape_subst s)) with ht | hf
      · exact absurd ((could_be_ascii_hex_iff (escape_subst s)).mp ht) h
      · exact hf
    simp [escape_field_value, hc]

/-- C2: the five sequential whole-string substitutions, backslash first,
never interfere with each other: their composition equals the spec's
character-by-character escaping function on every input. -/
theorem escape_subst_eq_charwise (s : List Char) :
    escape_subst s = spec_escape s := by
  induction s with
  | nil => rfl
  | cons x xs ih =>
    rw [escape_subst_cons, ih]
    simp [spec_escape]

/-- C3: escaping is invertible: unescaping (the reverse substitution)
recovers the original string from the escaped string, for every input. -/
theorem unescape_escape_subst (s : List Char) :
    unescape (escape_subst s) = s := by
  induction s with
  | nil => rfl
  | cons x xs ih =>
    rw [escape_subst_cons]
    by_cases hsp : x = '\\' ∨ x = ';' ∨ x = ',' ∨ x = '"' ∨ x = ':'
    · have hx : spec_escape_char x = ['\\', x] := by
        simp [spec_escape_char, hsp]
      rw [hx]
      simp [unescape, ih]
    · push_neg at hsp
      obtain ⟨h1, h2, h3, h4, h5⟩ := hsp
      have hx : spec_escape_char x = [x] := by
        simp [spec_escape_char, h1, h2, h3, h4, h5]
      rw [hx, List.singleton_append, unescape_cons_of_ne x _ h1, ih]

/-- C4: the authentication-kind wire mapping: none maps to `nopass`, WEP to
`WEP`, WPA and WPA3 both to `WPA`, WPA2-Enterprise to `WPA2-EAP`; only the
WPA3 kind adds the extra field `R` (hex encoding of the byte 01, rendering
as `R:1;`) after the `T` field, and no other kind emits a field named
`R`. -/
theorem add_fields_wire_mapping :
    (WifiMethod.add_fields .NoPass).map Field.render = ["T:nopass;".toList]
    ∧ (WifiMethod.add_fields .Wep).map Field.render = ["T:WEP;".toList]
    ∧ (WifiMethod.add_fields .Wpa).map Field.render = ["T:WPA;".toList]
    ∧ (WifiMethod.add_fields .Wpa2Enterprise).map Field.render = ["T:WPA2-EAP;".toList]
    ∧ (WifiMethod.add_fields .Wpa3).map Field.render = ["T:WPA;".toList, "R:1;".toList]
    ∧ (WifiMethod.add_fields .NoPass).map Field.name = [['T']]
    ∧ (WifiMethod.add_fields .Wep).map Field.name = [['T']]
    ∧ (WifiMethod.add_fields .Wpa).map Field.name = [['T']]
    ∧ (WifiMethod.add_fields .Wpa2Enterprise).map Field.name = [['T']]
    ∧ (WifiMethod.add_fields .Wpa3).map Field.name = [['T'], ['R']] := by
  decide

/-- C7: the credential with ssid `MyNet`, kind WPA and password `secret`
serializes to exactly `WIFI:T:WPA;S:MyNet;P:secret;;`. -/
theorem to_string_mynet_example :
    (((Wifi.new ("MyNet".toList)).with_method (some .Wpa)).with_password
        (some ("secret".toList))).to_string
      = "WIFI:T:WPA;S:MyNet;P:secret;;".toList := by
  decide

theorem map_name_kind_seg (o : Option WifiMethod) :
    (optFields WifiMethod.add_fields o).map Field.name =
      o.elim [] (fun m => if m = WifiMethod.Wpa3 then [['T'], ['R']] else [['T']]) := by
  rcases o with _ | m
  · rfl
  · cases m <;> rfl

theorem map_name_single_seg {A : Type} (f : A → List Field) (nm : List Char)
    (hf : ∀ x, (f x).map Field.name = [nm]) (o : Option A) :
    (optFields f o).map Field.name = o.elim [] (fun _ => [nm]) := by
  rcases o with _ | x
  · rfl
  · exact hf x

/-- C5: the names of the emitted fields, in order: the auth kind's `T`
(with the WPA3 extra `R`), the ssid's `S`, then `H`, `E`, `PH2`, `A`, `I`,
`P`, `K`, each present exactly when its source value is present (or the
hidden flag true); and when hidden is true the emitted field is exactly
`H:true;`. -/
theorem fields_order_and_presence (w : Wifi) :
    w.fields.map Field.name =
      (w.kind.elim [] (fun m => if m = WifiMethod.Wpa3 then [['T'], ['R']] else [['T']])
      ++ [['S']]
      ++ (if w.hidden then [['H']] else [])
      ++ w.eap_method.elim [] (fun _ => [['E']])
      ++ w.phase2.elim [] (fun _ => [['P', 'H', '2']])
      ++ w.anonymous_identity.elim [] (fun _ => [['A']])
      ++ w.identity.elim [] (fun _ => [['I']])
      ++ w.password.elim [] (fun _ => [['P']])
      ++ w.public_key.elim [] (fun _ => [['K']]))
    ∧ (w.hidden = true →
        Field.new_string ['H'] ("true".toList) ∈ w.fields
        ∧ (Field.new_string ['H'] ("true".toList)).render = "H:true;".toList) := by
  constructor
  · simp only [Wifi.fields, List.map_append, map_name_kind_seg,
      map_name_single_seg EapMethod.add_fields ['E'] (fun x => rfl),
      map_name_single_seg Phase2.add_fields ['P', 'H', '2'] (fun x => rfl),
      map_name_single_seg (fun anon => [Field.new_string ['A'] anon]) ['A'] (fun x => rfl),
      map_name_single_seg (fun ident => [Field.new_string ['I'] ident]) ['I'] (fun x => rfl),
      map_name_single_seg (fun password => [Field.new_string ['P'] password]) ['P']
        (fun x => rfl),
      map_name_single_seg (fun pk => [Field.new_base64 ['K'] pk]) ['K'] (fun x => rfl),
      apply_ite (List.map Field.name), List.map_cons, List.map_nil]
    rfl
  · intro h
    refine ⟨?_, by decide⟩
    simp [Wifi.fields, h, optFields]

/-- C6: the payload is `WIFI:` followed by the concatenated rendered fields
followed by one final `;`; hence it always begins with `WIFI:` and, when at
least one field is present, ends with the two characters `;;`. -/
theorem to_string_shape (w : Wifi) :
    w.to_string = "WIFI:".toList ++ (w.fields.map Field.render).flatten ++ [';']
    ∧ (∃ rest, w.to_string = "WIFI:".toList ++ rest)
    ∧ (w.fields ≠ [] → ∃ front, w.to_string = front ++ [';', ';']) := by
  refine ⟨rfl, ⟨(w.fields.map Field.render).flatten ++ [';'], by
    simp [Wifi.to_string]⟩, ?_⟩
  intro h
  rcases List.eq_nil_or_concat w.fields with h2 | ⟨L, b, hLb⟩
  · exact absurd h2 h
  · refine ⟨"WIFI:".toList ++ (L.map Field.render).flatten ++ (b.name ++ ':' :: b.value), ?_⟩
    simp [Wifi.to_string, hLb, Field.render, List.concat_eq_append]

/-- C8: when QR generation fails on the payload, `generate_image_file`
returns the QR-generation error kind and the file-system state is
unchanged: the saving step is reached only after QR generation succeeds. -/
theorem qr_error_leaves_fs_unchanged (env : QrEnv Code Img Fmt FS QErr IErr OErr)
    (w : Wifi) (format : Option Fmt) (fs : FS) (e : QErr)
    (h : env.qrNew w.to_string = .error e) :
    generate_image_file env w format fs = (some (GenerationError.QrError e), fs) := by
  simp [generate_image_file, h]

/-- Witness for C8: in the concrete always-failing environment, the error
comes back as the QR kind and the file-system state 7 is returned
untouched. -/
theorem qr_error_leaves_fs_unchanged_witness :
    generate_image_file qrEnvFailing (Wifi.new ['x']) none 7
      = (some (GenerationError.QrError 0), 7) :=
  qr_error_leaves_fs_unchanged qrEnvFailing (Wifi.new ['x']) none 7 0 rfl

/-- C9: each builder step is a pure frame-preserving update: the targeted
attribute takes the supplied argument and every other attribute is kept;
`new` sets the ssid, leaves `hidden` false and every optional attribute
absent. -/
theorem builder_frame (w : Wifi) (ssid : List Char) (m : Option WifiMethod) (b : Bool)
    (e : Option EapMethod) (p2 : Option Phase2) (a idv pw : Option (List Char))
    (pk : Option (List Nat)) :
    ((Wifi.new ssid).ssid = ssid ∧ (Wifi.new ssid).kind = none
      ∧ (Wifi.new ssid).hidden = false ∧ (Wifi.new ssid).eap_method = none
      ∧ (Wifi.new ssid).phase2 = none ∧ (Wifi.new ssid).anonymous_identity = none
      ∧ (Wifi.new ssid).identity = none ∧ (Wifi.new ssid).password = none
      ∧ (Wifi.new ssid).public_key = none)
    ∧ ((w.with_method m).kind = m ∧ (w.with_method m).ssid = w.ssid
      ∧ (w.with_method m).hidden = w.hidden ∧ (w.with_method m).eap_method = w.eap_method
      ∧ (w.with_method m).phase2 = w.phase2
      ∧ (w.with_method m).anonymous_identity = w.anonymous_identity
      ∧ (w.with_method m).identity = w.identity ∧ (w.with_method m).password = w.password
      ∧ (w.with_method m).public_key = w.public_key)
    ∧ ((w.with_hidden b).hidden = b ∧ (w.with_hidden b).ssid = w.ssid
      ∧ (w.with_hidden b).kind = w.kind ∧ (w.with_hidden b).eap_method = w.eap_method
      ∧ (w.with_hidden b).phase2 = w.phase2
      ∧ (w.with_hidden b).anonymous_identity = w.anonymous_identity
      ∧ (w.with_hidden b).identity = w.identity ∧ (w.with_hidden b).password = w.password
      ∧ (w.with_hidden b).public_key = w.public_key)
    ∧ ((w.with_eap_method e).eap_method = e ∧ (w.with_eap_method e).ssid = w.ssid
      ∧ (w.with_eap_method e).kind = w.kind ∧ (w.with_eap_method e).hidden = w.hidden
      ∧ (w.with_eap_method e).phase2 = w.phase2
      ∧ (w.with_eap_method e).anonymous_identity = w.anonymous_identity
      ∧ (w.with_eap_method e).identity = w.identity
      ∧ (w.with_eap_method e).password = w.password
      ∧ (w.with_eap_method e).public_key = w.public_key)
    ∧ ((w.with_phase2 p2).phase2 = p2 ∧ (w.with_phase2 p2).ssid = w.ssid
      ∧ (w.with_phase2 p2).kind = w.kind ∧ (w.with_phase2 p2).hidden = w.hidden
      ∧ (w.with_phase2 p2).eap_method = w.eap_method
      ∧ (w.with_phase2 p2).anonymous_identity = w.anonymous_identity
      ∧ (w.with_phase2 p2).identity = w.identity ∧ (w.with_phase2 p2).password = w.password
      ∧ (w.with_phase2 p2).public_key = w.public_key)
    ∧ ((w.with_anonymous_identity a).anonymous_identity = a
      ∧ (w.with_anonymous_identity a).ssid = w.ssid
      ∧ (w.with_anonymous_identity a).kind = w.kind
      ∧ (w.with_anonymous_identity a).hidden = w.hidden
      ∧ (w.with_anonymous_identity a).eap_method = w.eap_method
      ∧ (w.with_anonymous_identity a).phase2 = w.phase2
      ∧ (w.with_anonymous_identity a).identity = w.identity
      ∧ (w.with_anonymous_identity a).password = w.password
      ∧ (w.with_anonymous_identity a).public_key = w.public_key)
    ∧ ((w.with_identity idv).identity = idv ∧ (w.with_identity idv).ssid = w.ssid
      ∧ (w.with_identity idv).kind = w.kind ∧ (w.with_identity idv).hidden = w.hidden
      ∧ (w.with_identity idv).eap_method = w.eap_method
      ∧ (w.with_identity idv).phase2 = w.phase2
      ∧ (w.with_identity idv).anonymous_identity = w.anonymous_identity
      ∧ (w.with_identity idv).password = w.password
      ∧ (w.with_identity idv).public_key = w.public_key)
    ∧ ((w.with_password pw).password = pw ∧ (w.with_password pw).ssid = w.ssid
      ∧ (w.with_password pw).kind = w.kind ∧ (w.with_password pw).hidden = w.hidden
      ∧ (w.with_password pw).eap_method = w.eap_method
      ∧ (w.with_password pw).phase2 = w.phase2
      ∧ (w.with_password pw).anonymous_identity = w.anonymous_identity
      ∧ (w.with_password pw).identity = w.identity
      ∧ (w.with_password pw).public_key = w.public_key)
    ∧ ((w.with_public_key pk).public_key = pk ∧ (w.with_public_key pk).ssid = w.ssid
      ∧ (w.with_public_key pk).kind = w.kind ∧ (w.with_public_key pk).hidden = w.hidden
      ∧ (w.with_public_key pk).eap_method = w.eap_method
      ∧ (w.with_public_key pk).phase2 = w.phase2
      ∧ (w.with_public_key pk).anonymous_identity = w.anonymous_identity
      ∧ (w.with_public_key pk).identity = w.identity
      ∧ (w.with_public_key pk).password = w.password) := by
  refine ⟨?_, ?_, ?_, ?_, ?_, ?_, ?_, ?_, ?_⟩ <;>
    exact ⟨rfl, rfl, rfl, rfl, rfl, rfl, rfl, rfl, rfl⟩

theorem length_kind_seg (o : Option WifiMethod) :
    (optFields WifiMethod.add_fields o).length =
      o.elim 0 (fun m => if m = WifiMethod.Wpa3 then 2 else 1) := by
  rcases o with _ | m
  · rfl
  · cases m <;> rfl

theorem length_single_seg {A : Type} (f : A → List Field) (hf : ∀ x, (f x).length = 1)
    (o : Option A) : (optFields f o).length = o.isSome.toNat := by
  rcases o with _ | x
  · rfl
  · exact hf x

/-- C10: the pre-sizing hint is exact: `expected_field_count` equals the
length of the list `fields` produces, for every credential. -/
theorem expected_field_count_exact (w : Wifi) :
    w.expected_field_count = w.fields.length := by
  obtain ⟨ssid, kind, hidden, eap, ph2, anon, ident, pw, pk⟩ := w
  simp only [Wifi.fields, Wifi.expected_field_count, List.length_append, List.length_cons,
    List.length_nil, length_kind_seg,
    length_single_seg EapMethod.add_fields (fun x => rfl),
    length_single_seg Phase2.add_fields (fun x => rfl),
    length_single_seg (fun anon => [Field.new_string ['A'] anon]) (fun x => rfl),
    length_single_seg (fun ident => [Field.new_string ['I'] ident]) (fun x => rfl),
    length_single_seg (fun password => [Field.new_string ['P'] password]) (fun x => rfl),
    length_single_seg (fun pk => [Field.new_base64 ['K'] pk]) (fun x => rfl)]
  rcases kind with _ | m
  · cases hidden <;> simp
  · cases m <;> cases hidden <;> simp [WifiMethod.add_fields]

end WifiQr
